import Mathlib

/-!
Verification of the data-access layer of the Crypto-Price-Tracker repository
(`src/services/cryptoAPI.ts`): TTL cache, exponential-backoff retry,
per-resource lookup facade with synthetic-data fallback, and the prediction
heuristic.  JavaScript numbers are embedded as exact rationals (`ℚ`);
timestamps from `Date.now()` as integers; nullable / optional numeric fields
as `Option ℚ` with JavaScript's `Number(null) = 0` coercion made explicit.
The network is abstracted as a stream of per-attempt outcomes handed to the
retry loop; `Math.random()` as explicit streams of samples in `[0, 1)`.
-/

/-! ## Basic enumerated types (src/types/crypto.ts) -/

inductive Trend where
  | bullish
  | bearish
  | neutral
deriving DecidableEq, Repr

inductive ChartTimeframe where
  | h1
  | h24
  | d7
  | d30
  | d90
  | y1
  | all
deriving DecidableEq, Repr

/-- The string literal of a `ChartTimeframe` as it appears in cache keys. -/
def ChartTimeframe.str : ChartTimeframe → String
  | .h1 => "1h"
  | .h24 => "24h"
  | .d7 => "7d"
  | .d30 => "30d"
  | .d90 => "90d"
  | .y1 => "1y"
  | .all => "all"

inductive ComparisonAsset where
  | usd
  | btc
  | eth
deriving DecidableEq, Repr

/-- The string literal of a `ComparisonAsset` as it appears in cache keys. -/
def ComparisonAsset.str : ComparisonAsset → String
  | .usd => "usd"
  | .btc => "btc"
  | .eth => "eth"

/-! ## Entity records (src/types/crypto.ts) -/

structure CryptoCurrency where
  id : String
  symbol : String
  name : String
  current_price : ℚ
  price_change_percentage_24h : Option ℚ
  price_change_percentage_7d : Option ℚ
  price_change_percentage_30d : Option ℚ
  market_cap : ℚ
  market_cap_rank : ℚ
  fully_diluted_valuation : Option ℚ
  total_volume : ℚ
  circulating_supply : ℚ
  total_supply : Option ℚ
  max_supply : Option ℚ
  ath : ℚ
  ath_date : String
  atl : ℚ
  atl_date : String
  image : String
  last_updated : String
deriving DecidableEq, Repr

structure MarketInfo where
  name : String
  identifier : String
  has_trading_incentive : Bool
deriving DecidableEq, Repr

structure ConvertedTriple where
  btc : ℚ
  eth : ℚ
  usd : ℚ
deriving DecidableEq, Repr

structure TradingPair where
  base : String
  target : String
  market : MarketInfo
  last : ℚ
  volume : ℚ
  converted_last : ConvertedTriple
  converted_volume : ConvertedTriple
  trust_score : String
  bid_ask_spread_percentage : ℚ
  timestamp : String
  last_traded_at : String
  last_fetch_at : String
  is_anomaly : Bool
  is_stale : Bool
  trade_url : String
deriving DecidableEq, Repr

structure PredictionData where
  currency : String
  prediction : ℚ
  confidence : ℚ
  trend : Trend
  timeframe : String
deriving DecidableEq, Repr

structure ChartData where
  timestamp : ℚ
  price : ℚ
  volume : ℚ
  market_cap : ℚ
deriving DecidableEq, Repr

structure CandlestickData where
  timestamp : ℚ
  «open» : ℚ
  high : ℚ
  low : ℚ
  close : ℚ
  volume : ℚ
deriving DecidableEq, Repr

/-! ## TTL cache (cryptoAPI.ts lines 69-83)

The module-level `Map` stores, under a string key, a value together with the
`Date.now()` timestamp at storage time and a ttl in milliseconds.  Values of
different resource kinds share the one map, so the stored payload is a sum. -/

inductive CacheValue where
  | cryptos (v : List CryptoCurrency)
  | pairs (v : List TradingPair)
  | chart (v : List ChartData)
  | candles (v : List CandlestickData)
deriving DecidableEq, Repr

structure CacheEntry where
  data : CacheValue
  timestamp : ℤ
  ttl : ℤ
deriving DecidableEq, Repr

/-- The in-memory cache: association list mirroring the JS `Map`. -/
def Cache := List (String × CacheEntry)

instance : DecidableEq Cache := by
  unfold Cache
  infer_instance

/-- Models `cache.get(key)` on the JS `Map`. -/
def cacheGet (c : Cache) (key : String) : Option CacheEntry :=
  (c.find? (fun p => p.1 == key)).map (·.2)

/-- Models `cache.delete(key)` on the JS `Map`. -/
def cacheErase (c : Cache) (key : String) : Cache :=
  c.filter (fun p => !(p.1 == key))

/-- Function `getCachedData` (lines 72-79): return the stored data if the entry is
fresh (`Date.now() - timestamp < ttl`); otherwise delete the entry and
return `null`.  Returns the possibly-updated cache alongside the result. -/
def getCachedData (c : Cache) (now : ℤ) (key : String) : Option CacheValue × Cache :=
  match cacheGet c key with
  | some e => if now - e.timestamp < e.ttl then (some e.data, c) else (none, cacheErase c key)
  | none => (none, cacheErase c key)

/-- Function `setCachedData` (lines 81-83): `cache.set(key, ...)` replaces any entry
under `key`. -/
def setCachedData (c : Cache) (now : ℤ) (key : String) (v : CacheValue) (ttl : ℤ) : Cache :=
  (key, ⟨v, now, ttl⟩) :: cacheErase c key

/-! ## Fetch client with retry (cryptoAPI.ts lines 22-67)

An attempt either yields a `Response` (with a status code and, when the
facade later parses it, a body of payload type `β`) or fails at the network
level (the `fetch` promise rejects).  The loop runs `attempt = 0..retries`;
the result records the response or error surfaced, the number of attempts
performed, and the backoff delays slept between attempts. -/

structure Response (β : Type) where
  status : Nat
  body : β
deriving DecidableEq, Repr

/-- Models `response.ok` of the Fetch API: status in [200, 300). -/
def Response.ok (r : Response β) : Bool :=
  decide (200 ≤ r.status) && decide (r.status < 300)

/-- Line 37's early-return test: success or client error (4xx). -/
def returnsImmediately (r : Response β) : Bool :=
  r.ok || (decide (400 ≤ r.status) && decide (r.status < 500))

/-- Line 42's retry test: server error (5xx) or rate limit (429). -/
def isRetryableStatus (s : Nat) : Bool :=
  decide (500 ≤ s) || decide (s == 429)

inductive FetchOutcome (β : Type) where
  | resp (r : Response β)
  | netErr
deriving DecidableEq, Repr

/-- The status of an attempt's outcome, when a response was received. -/
def FetchOutcome.statusOf : FetchOutcome β → Option Nat
  | .resp r => some r.status
  | .netErr => none

inductive FetchResultKind (β : Type) where
  | returned (r : Response β)
  | netThrown
  | exhausted
deriving DecidableEq, Repr

structure FetchTrace (β : Type) where
  result : FetchResultKind β
  attempts : Nat
  delays : List Nat
deriving DecidableEq, Repr

/-- Line 43 / 57: `Math.min(1000 * Math.pow(2, attempt), 10000)`. -/
def backoffDelay (attempt : Nat) : Nat :=
  min (1000 * 2 ^ attempt) 10000

/-- The retry loop body of `fetchWithRetry`, with `fuel` the number of loop
iterations still available (`retries + 1 - attempt`).  The `fuel = 0` case is
the `throw new Error('Max retries exceeded')` after the loop (line 66),
unreachable from `attempt = 0, fuel = retries + 1`. -/
def fwrGo (outcomes : Nat → FetchOutcome β) (retries : Nat) : Nat → Nat → FetchTrace β
  | attempt, 0 => ⟨.exhausted, attempt, []⟩
  | attempt, fuel + 1 =>
    match outcomes attempt with
    | .netErr =>
      if attempt < retries then
        let t := fwrGo outcomes retries (attempt + 1) fuel
        ⟨t.result, t.attempts, backoffDelay attempt :: t.delays⟩
      else ⟨.netThrown, attempt + 1, []⟩
    | .resp r =>
      if returnsImmediately r then ⟨.returned r, attempt + 1, []⟩
      else if attempt < retries ∧ isRetryableStatus r.status then
        let t := fwrGo outcomes retries (attempt + 1) fuel
        ⟨t.result, t.attempts, backoffDelay attempt :: t.delays⟩
      else ⟨.returned r, attempt + 1, []⟩

/-- Function `fetchWithRetry(url, options, retries)` (lines 23-67), with the network
abstracted as the per-attempt outcome stream. -/
def fetchWithRetry (outcomes : Nat → FetchOutcome β) (retries : Nat) : FetchTrace β :=
  fwrGo outcomes retries 0 (retries + 1)

/-- A fetch that the facade's `catch`/non-OK check treats as failed: the
retry loop surfaced a thrown error, or a response that is not OK. -/
def FetchTrace.failed (t : FetchTrace β) : Prop :=
  match t.result with
  | .returned r => r.ok = false
  | .netThrown => True
  | .exhausted => True

/-! ## Synthetic data generators (cryptoAPI.ts lines 278-505)

`new Date().toISOString()` is abstracted as the ambient string `nowIso`,
`Date.now()` as `nowMs`, and each `Math.random()` call as the next element of
an explicit sample stream. -/

/-- Function `generateMockData` (lines 279-377): curated profiles for bitcoin,
ethereum and solana; a generic placeholder derived from the identifier
string otherwise. -/
def generateMockData (ids : List String) (nowIso : String) : List CryptoCurrency :=
  ids.map fun id =>
    if id = "bitcoin" then
      { id := "bitcoin", symbol := "btc", name := "Bitcoin"
        current_price := 43250
        price_change_percentage_24h := some 2.45
        price_change_percentage_7d := some 5.23
        price_change_percentage_30d := some 12.45
        market_cap := 847000000000, market_cap_rank := 1
        fully_diluted_valuation := some 908000000000
        total_volume := 25000000000
        circulating_supply := 19600000, total_supply := some 19600000
        max_supply := some 21000000
        ath := 69045, ath_date := "2021-11-10T14:24:11.849Z"
        atl := 67.81, atl_date := "2013-07-06T00:00:00.000Z"
        image := "https://assets.coingecko.com/coins/images/1/large/bitcoin.png"
        last_updated := nowIso }
    else if id = "ethereum" then
      { id := "ethereum", symbol := "eth", name := "Ethereum"
        current_price := 2650
        price_change_percentage_24h := some (-1.23)
        price_change_percentage_7d := some 3.45
        price_change_percentage_30d := some 8.76
        market_cap := 318000000000, market_cap_rank := 2
        fully_diluted_valuation := some 318000000000
        total_volume := 15000000000
        circulating_supply := 120000000, total_supply := some 120000000
        max_supply := none
        ath := 4878.26, ath_date := "2021-11-10T14:24:19.604Z"
        atl := 0.432979, atl_date := "2015-10-20T00:00:00.000Z"
        image := "https://assets.coingecko.com/coins/images/279/large/ethereum.png"
        last_updated := nowIso }
    else if id = "solana" then
      { id := "solana", symbol := "sol", name := "Solana"
        current_price := 102.50
        price_change_percentage_24h := some 5.67
        price_change_percentage_7d := some 12.34
        price_change_percentage_30d := some 25.67
        market_cap := 46000000000, market_cap_rank := 5
        fully_diluted_valuation := some 58000000000
        total_volume := 2500000000
        circulating_supply := 448000000, total_supply := some 565000000
        max_supply := none
        ath := 259.96, ath_date := "2021-11-06T21:54:35.825Z"
        atl := 0.500801, atl_date := "2020-05-11T19:35:23.449Z"
        image := "https://assets.coingecko.com/coins/images/4128/large/solana.png"
        last_updated := nowIso }
    else
      { id := id
        symbol := (id.take 3).toUpper
        name := (id.take 1).toUpper ++ id.drop 1
        current_price := 1
        price_change_percentage_24h := some 0
        price_change_percentage_7d := some 0
        price_change_percentage_30d := some 0
        market_cap := 1000000, market_cap_rank := 999
        fully_diluted_valuation := some 1000000
        total_volume := 100000
        circulating_supply := 1000000, total_supply := some 1000000
        max_supply := some 1000000
        ath := 2, ath_date := nowIso
        atl := 0.50, atl_date := nowIso
        image := "https://via.placeholder.com/32x32/6366f1/ffffff?text=" ++ (id.take 1).toUpper
        last_updated := nowIso }

/-- Function `generateMockTradingPairs` (lines 440-465). -/
def generateMockTradingPairs (coinId : String) (nowIso : String) : List TradingPair :=
  let symbol := if coinId = "bitcoin" then "BTC" else if coinId = "ethereum" then "ETH" else "SOL"
  [ { base := symbol, target := "USDT"
      market := { name := "Binance", identifier := "binance", has_trading_incentive := false }
      last := 43250, volume := 125000000
      converted_last := { btc := 1, eth := 16.3, usd := 43250 }
      converted_volume := { btc := 2890, eth := 47127, usd := 125000000 }
      trust_score := "green"
      bid_ask_spread_percentage := 0.01
      timestamp := nowIso, last_traded_at := nowIso, last_fetch_at := nowIso
      is_anomaly := false, is_stale := false
      trade_url := "https://www.binance.com/en/trade/" ++ symbol ++ "_USDT" } ]

/-- Function `generateMockChartData` (lines 467-482); `Math.sin` is abstracted as the
ambient function `sine`, and iteration `i` consumes random samples
`rand (2*i)` (price) and `rand (2*i+1)` (volume). -/
def generateMockChartData (timeframe : ChartTimeframe) (nowMs : ℚ) (rand : Nat → ℚ)
    (sine : ℚ → ℚ) : List ChartData :=
  let points : Nat := if timeframe = .h1 then 60 else if timeframe = .h24 then 24 else 168
  let interval : ℚ := if timeframe = .h1 then 60000 else if timeframe = .h24 then 3600000 else 3600000
  (List.range points).map fun (i : Nat) =>
    let price := 43000 + sine ((i : ℚ) * 0.1) * 2000 + rand (2 * i) * 1000
    { timestamp := nowMs - ((points - i : Nat) : ℚ) * interval
      price := price
      volume := rand (2 * i + 1) * 1000000000
      market_cap := price * 19600000 }

/-- The loop of `generateMockCandlestickData` (lines 492-502); iteration `i`
consumes random samples `rand (5*i) .. rand (5*i+4)` in source order (open,
high, low, close, volume), threading `lastClose` through. -/
def genCandlesGo (rand : Nat → ℚ) (nowMs interval : ℚ) (points : Nat) :
    Nat → Nat → ℚ → List CandlestickData
  | _, 0, _ => []
  | i, fuel + 1, lastClose =>
    let o := lastClose + (rand (5 * i) - 0.5) * 100
    let high := o + rand (5 * i + 1) * 500
    let low := o - rand (5 * i + 2) * 500
    let close := low + rand (5 * i + 3) * (high - low)
    { timestamp := nowMs - ((points - i : Nat) : ℚ) * interval
      «open» := o, high := high, low := low, close := close
      volume := rand (5 * i + 4) * 1000000 }
      :: genCandlesGo rand nowMs interval points (i + 1) fuel close

/-- Function `generateMockCandlestickData` (lines 484-505): `points` candles starting
from `lastClose = 43000`. -/
def generateMockCandlestickData (timeframe : ChartTimeframe) (nowMs : ℚ)
    (rand : Nat → ℚ) : List CandlestickData :=
  let points : Nat := if timeframe = .h1 then 60 else if timeframe = .h24 then 24 else 168
  let interval : ℚ := if timeframe = .h1 then 60000 else if timeframe = .h24 then 3600000 else 3600000
  genCandlesGo rand nowMs interval points 0 points 43000

/-! ## Data access facade (cryptoAPI.ts lines 85-222)

Each lookup computes its cache key, consults the cache, and on a miss runs
the fetch client (with the default `retries = 3`); a non-OK response throws
and the `catch` returns the synthetic generator's output without caching.
The URL built for the fetch does not influence the modelled behaviour and is
abstracted away along with the network (the `outcomes` stream). -/

/-- The cache key of `fetchCryptocurrencies` (line 86). -/
def cryptosCacheKey (ids : List String) : String :=
  "cryptos-" ++ String.intercalate "," ids

/-- Function `fetchCryptocurrencies` (lines 85-102).  The response body stands for
the already-parsed JSON payload. -/
def fetchCryptocurrencies (ids : List String) (outcomes : Nat → FetchOutcome (List CryptoCurrency))
    (cache : Cache) (now : ℤ) (nowIso : String) : CacheValue × Cache :=
  match getCachedData cache now (cryptosCacheKey ids) with
  | (some cached, c1) => (cached, c1)
  | (none, c1) =>
    match (fetchWithRetry outcomes 3).result with
    | .returned r =>
      if r.ok then
        (.cryptos r.body, setCachedData c1 now (cryptosCacheKey ids) (.cryptos r.body) 30000)
      else (.cryptos (generateMockData ids nowIso), c1)
    | _ => (.cryptos (generateMockData ids nowIso), c1)

/-- The payload of the tickers endpoint: `data.tickers` may be absent. -/
structure TickersPayload where
  tickers : Option (List TradingPair)
deriving DecidableEq, Repr

/-- Function `fetchTradingPairs` (lines 140-155): on a successful response it caches
and returns `data.tickers || []`. -/
def fetchTradingPairs (coinId : String) (outcomes : Nat → FetchOutcome TickersPayload)
    (cache : Cache) (now : ℤ) (nowIso : String) : CacheValue × Cache :=
  match getCachedData cache now ("pairs-" ++ coinId) with
  | (some cached, c1) => (cached, c1)
  | (none, c1) =>
    match (fetchWithRetry outcomes 3).result with
    | .returned r =>
      if r.ok then
        let ts := r.body.tickers.getD []
        (.pairs ts, setCachedData c1 now ("pairs-" ++ coinId) (.pairs ts) 60000)
      else (.pairs (generateMockTradingPairs coinId nowIso), c1)
    | _ => (.pairs (generateMockTradingPairs coinId nowIso), c1)

/-- The payload of the market-chart endpoint: each field may be absent, and
holds [timestamp, value] pairs when present. -/
structure MarketChartPayload where
  prices : Option (List (ℚ × ℚ))
  total_volumes : Option (List (ℚ × ℚ))
  market_caps : Option (List (ℚ × ℚ))
deriving DecidableEq, Repr

/-- Models `data.total_volumes?.[index]?.[1] || 0` (lines 179-180). -/
def optIndexSnd (l : Option (List (ℚ × ℚ))) (i : Nat) : ℚ :=
  (((l.getD []).get? i).map (·.2)).getD 0

/-- The cache key of `fetchPriceHistory` (line 162). -/
def historyCacheKey (id : String) (timeframe : ChartTimeframe) (comparison : ComparisonAsset) : String :=
  "history-" ++ id ++ "-" ++ timeframe.str ++ "-" ++ comparison.str

/-- Function `fetchPriceHistory` (lines 157-189): `data.prices.map(...)` throws when
`prices` is absent, landing in the `catch` that returns mock chart data. -/
def fetchPriceHistory (id : String) (timeframe : ChartTimeframe) (comparison : ComparisonAsset)
    (outcomes : Nat → FetchOutcome MarketChartPayload) (cache : Cache) (now : ℤ)
    (nowMs : ℚ) (rand : Nat → ℚ) (sine : ℚ → ℚ) : CacheValue × Cache :=
  match getCachedData cache now (historyCacheKey id timeframe comparison) with
  | (some cached, c1) => (cached, c1)
  | (none, c1) =>
    match (fetchWithRetry outcomes 3).result with
    | .returned r =>
      if r.ok then
        match r.body.prices with
        | none => (.chart (generateMockChartData timeframe nowMs rand sine), c1)
        | some ps =>
          let chartData := ps.enum.map fun p =>
            ({ timestamp := p.2.1, price := p.2.2
               volume := optIndexSnd r.body.total_volumes p.1
               market_cap := optIndexSnd r.body.market_caps p.1 } : ChartData)
          (.chart chartData,
            setCachedData c1 now (historyCacheKey id timeframe comparison) (.chart chartData) 30000)
      else (.chart (generateMockChartData timeframe nowMs rand sine), c1)
    | _ => (.chart (generateMockChartData timeframe nowMs rand sine), c1)

/-- Lines 207-214: each upstream OHLC 5-tuple `[timestamp, open, high, low,
close]` is copied verbatim into a `CandlestickData`, with a fresh
`Math.random() * 1000000` as the synthesized volume. -/
def parseCandles (body : List (ℚ × ℚ × ℚ × ℚ × ℚ)) (volRand : Nat → ℚ) : List CandlestickData :=
  body.enum.map fun p =>
    { timestamp := p.2.1, «open» := p.2.2.1, high := p.2.2.2.1
      low := p.2.2.2.2.1, close := p.2.2.2.2.2
      volume := volRand p.1 * 1000000 }

/-- The cache key of `fetchCandlestickData` (line 195). -/
def candlestickCacheKey (id : String) (timeframe : ChartTimeframe) : String :=
  "candlestick-" ++ id ++ "-" ++ timeframe.str

/-- Function `fetchCandlestickData` (lines 191-222). -/
def fetchCandlestickData (id : String) (timeframe : ChartTimeframe)
    (outcomes : Nat → FetchOutcome (List (ℚ × ℚ × ℚ × ℚ × ℚ))) (volRand : Nat → ℚ)
    (genRand : Nat → ℚ) (cache : Cache) (now : ℤ) (nowMs : ℚ) : CacheValue × Cache :=
  match getCachedData cache now (candlestickCacheKey id timeframe) with
  | (some cached, c1) => (cached, c1)
  | (none, c1) =>
    match (fetchWithRetry outcomes 3).result with
    | .returned r =>
      if r.ok then
        let cd := parseCandles r.body volRand
        (.candles cd, setCachedData c1 now (candlestickCacheKey id timeframe) (.candles cd) 30000)
      else (.candles (generateMockCandlestickData timeframe nowMs genRand), c1)
    | _ => (.candles (generateMockCandlestickData timeframe nowMs genRand), c1)

/-! ## Prediction heuristic (cryptoAPI.ts lines 235-262) -/

/-- JavaScript's numeric coercion of a `number | null` field when it is
compared or passed to `Math.abs`: `Number(null) = 0`. -/
def jsNum (x : Option ℚ) : ℚ := x.getD 0

/-- Function `generatePrediction` (lines 235-262); `rand1` is the `Math.random()`
sample of the volatility factor, `rand2` that of the confidence jitter. -/
def generatePrediction (crypto : CryptoCurrency) (rand1 rand2 : ℚ) : PredictionData :=
  let volatilityFactor := rand1 * 0.2 - 0.1
  let trendFactor : ℚ := if jsNum crypto.price_change_percentage_24h > 0 then 0.05 else -0.05
  let marketCapFactor : ℚ := if crypto.market_cap_rank ≤ 10 then 0.02 else -0.02
  let prediction := crypto.current_price * (1 + volatilityFactor + trendFactor + marketCapFactor)
  let priceStability : ℚ := if |jsNum crypto.price_change_percentage_24h| < 5 then 0.1 else -0.1
  let marketCapStability : ℚ := if crypto.market_cap > 1000000000 then 0.1 else -0.05
  let baseConfidence : ℚ := 0.7
  let confidence := max 0.5 (min 0.95
    (baseConfidence + priceStability + marketCapStability + rand2 * 0.2))
  let trend : Trend :=
    if prediction > crypto.current_price * 1.03 then .bullish
    else if prediction < crypto.current_price * 0.97 then .bearish
    else .neutral
  { currency := crypto.symbol.toUpper
    prediction := prediction
    confidence := confidence
    trend := trend
    timeframe := "24h" }

/-! ## Cache lemmas -/

theorem cacheGet_erase_self (c : Cache) (k : String) : cacheGet (cacheErase c k) k = none := by
  induction c with
  | nil => rfl
  | cons hd tl ih =>
    unfold cacheErase cacheGet at *
    cases h : (hd.1 == k) with
    | true => simp [List.filter_cons, h, ih]
    | false => simp [List.filter_cons, h, List.find?_cons, ih]

theorem cacheGet_set_self (c : Cache) (now : ℤ) (k : String) (v : CacheValue) (ttl : ℤ) :
    cacheGet (setCachedData c now k v ttl) k = some ⟨v, now, ttl⟩ := by
  simp [cacheGet, setCachedData, List.find?_cons]

theorem getCachedData_absent (c : Cache) (now : ℤ) (k : String) (h : cacheGet c k = none) :
    getCachedData c now k = (none, cacheErase c k) := by
  simp [getCachedData, h]

theorem getCachedData_miss_eq (c : Cache) (now : ℤ) (k : String)
    (h : (getCachedData c now k).1 = none) :
    getCachedData c now k = (none, cacheErase c k) := by
  unfold getCachedData at *
  cases hg : cacheGet c k with
  | none => simp
  | some e =>
    rw [hg] at h
    by_cases hf : now - e.timestamp < e.ttl
    · simp [hf] at h
    · simp [hf]

/-- Claim C4: a cache `get` strictly before `storedAt + ttl` returns the
stored value unchanged (and leaves the cache untouched); a `get` at or after
that instant returns absent and removes the entry, after which only a
subsequent `set` repopulates the key. -/
theorem getCachedData_ttl_correct (c : Cache) (now : ℤ) (key : String) (e : CacheEntry)
    (h : cacheGet c key = some e) :
    (now < e.timestamp + e.ttl → getCachedData c now key = (some e.data, c)) ∧
    (e.timestamp + e.ttl ≤ now →
      getCachedData c now key = (none, cacheErase c key) ∧
      cacheGet (cacheErase c key) key = none ∧
      ∀ (now2 : ℤ) (v : CacheValue) (ttl2 : ℤ),
        cacheGet (setCachedData (cacheErase c key) now2 key v ttl2) key = some ⟨v, now2, ttl2⟩) := by
  constructor
  · intro hfresh
    have hlt : now - e.timestamp < e.ttl := by omega
    simp [getCachedData, h, hlt]
  · intro hstale
    have hlt : ¬ now - e.timestamp < e.ttl := by omega
    refine ⟨by simp [getCachedData, h, hlt], cacheGet_erase_self c key, ?_⟩
    intro now2 v ttl2
    exact cacheGet_set_self (cacheErase c key) now2 key v ttl2

/-- Witness for C4 at a concrete cache: an entry stored at time 0 with ttl
10 is returned by a get at time 9, while a get at time 10 evicts it and a
set repopulates it. -/
theorem getCachedData_ttl_correct_witness :
    getCachedData [("k", ⟨.pairs [], 0, 10⟩)] 9 "k" =
      (some (.pairs []), [("k", ⟨.pairs [], 0, 10⟩)]) ∧
    getCachedData [("k", ⟨.pairs [], 0, 10⟩)] 10 "k" =
      (none, cacheErase [("k", ⟨.pairs [], 0, 10⟩)] "k") ∧
    cacheGet (cacheErase [("k", ⟨.pairs [], 0, 10⟩)] "k") "k" = none ∧
    cacheGet (setCachedData (cacheErase [("k", ⟨.pairs [], 0, 10⟩)] "k") 11 "k" (.pairs []) 10) "k"
      = some ⟨.pairs [], 11, 10⟩ := by
  have h : cacheGet [("k", (⟨.pairs [], 0, 10⟩ : CacheEntry))] "k" = some ⟨.pairs [], 0, 10⟩ := by
    decide
  have thm := getCachedData_ttl_correct [("k", ⟨.pairs [], 0, 10⟩)] 9 "k" ⟨.pairs [], 0, 10⟩ h
  have thm10 := getCachedData_ttl_correct [("k", ⟨.pairs [], 0, 10⟩)] 10 "k" ⟨.pairs [], 0, 10⟩ h
  have h10 := thm10.2 (by decide)
  exact ⟨thm.1 (by decide), h10.1, h10.2.1, h10.2.2 11 (.pairs []) 10⟩

/-! ## Backoff and retry-count theorems -/

/-- Claim C8: the retry delay for 0-based attempt `n` is
`min(baseDelay * 2^n, maxDelay)` with `baseDelay = 1000` ms and
`maxDelay = 10000` ms; delays are monotone in the attempt index and capped
by `maxDelay`. -/
theorem backoffDelay_formula_monotone_capped :
    (∀ n, backoffDelay n = min (1000 * 2 ^ n) 10000) ∧
    (∀ n1 n2, n1 < n2 → backoffDelay n1 ≤ backoffDelay n2) ∧
    (∀ n, backoffDelay n ≤ 10000) := by
  refine ⟨fun n => rfl, ?_, fun n => min_le_right _ _⟩
  intro n1 n2 h
  exact min_le_min (Nat.mul_le_mul_left _ (Nat.pow_le_pow_right (by norm_num) h.le)) le_rfl

/-- Witness for C8 at concrete attempt indices. -/
theorem backoffDelay_formula_monotone_capped_witness :
    backoffDelay 2 = min (1000 * 2 ^ 2) 10000 ∧
    backoffDelay 0 ≤ backoffDelay 1 ∧
    backoffDelay 20 ≤ 10000 :=
  ⟨backoffDelay_formula_monotone_capped.1 2,
   backoffDelay_formula_monotone_capped.2.1 0 1 (by norm_num),
   backoffDelay_formula_monotone_capped.2.2 20⟩

/-- One-step unfolding of the retry loop. -/
theorem fwrGo_succ (outcomes : Nat → FetchOutcome β) (retries attempt fuel : Nat) :
    fwrGo outcomes retries attempt (fuel + 1) =
      match outcomes attempt with
      | .netErr =>
        if attempt < retries then
          let t := fwrGo outcomes retries (attempt + 1) fuel
          ⟨t.result, t.attempts, backoffDelay attempt :: t.delays⟩
        else ⟨.netThrown, attempt + 1, []⟩
      | .resp r =>
        if returnsImmediately r then ⟨.returned r, attempt + 1, []⟩
        else if attempt < retries ∧ isRetryableStatus r.status then
          let t := fwrGo outcomes retries (attempt + 1) fuel
          ⟨t.result, t.attempts, backoffDelay attempt :: t.delays⟩
        else ⟨.returned r, attempt + 1, []⟩ := rfl

theorem fwrGo_all_503 (outcomes : Nat → FetchOutcome β) (retries : Nat)
    (h503 : ∀ n, (outcomes n).statusOf = some 503) :
    ∀ fuel attempt, attempt + fuel = retries →
      ∀ r, outcomes retries = .resp r →
        fwrGo outcomes retries attempt (fuel + 1) =
          ⟨.returned r, retries + 1, (List.range' attempt (retries - attempt)).map backoffDelay⟩ := by
  intro fuel
  induction fuel with
  | zero =>
    intro attempt ha r hr
    have hae : attempt = retries := by omega
    subst hae
    have hs := h503 attempt
    rw [hr] at hs
    simp [FetchOutcome.statusOf] at hs
    have himm : returnsImmediately r = false := by
      simp [returnsImmediately, Response.ok, hs]
    rw [fwrGo_succ, hr]
    simp [himm]
  | succ fuel ih =>
    intro attempt ha r hr
    have hlt : attempt < retries := by omega
    have hs := h503 attempt
    cases ho : outcomes attempt with
    | netErr => rw [ho] at hs; simp [FetchOutcome.statusOf] at hs
    | resp ra =>
      rw [ho] at hs
      simp [FetchOutcome.statusOf] at hs
      have himm : returnsImmediately ra = false := by
        simp [returnsImmediately, Response.ok, hs]
      have hretry : isRetryableStatus ra.status = true := by
        simp [isRetryableStatus, hs]
      have hrec := ih (attempt + 1) (by omega) r hr
      have hrange : List.range' attempt (retries - attempt) =
          attempt :: List.range' (attempt + 1) (retries - (attempt + 1)) := by
        have hn : retries - attempt = (retries - (attempt + 1)) + 1 := by omega
        rw [hn]
        rfl
      rw [fwrGo_succ, ho]
      simp only [himm, Bool.false_eq_true, if_false]
      rw [if_pos ⟨hlt, hretry⟩]
      rw [hrec, hrange]
      simp

/-- Claim C5: a request answered 503 on every attempt performs exactly
`retries + 1` attempts, sleeping backoff delays in between, and then returns
the last failing response; a request answered 404 performs exactly 1
attempt and returns that response. -/
theorem retry_boundary_503_404 :
    (∀ (β : Type) (outcomes : Nat → FetchOutcome β) (retries : Nat),
      (∀ n, (outcomes n).statusOf = some 503) →
      ∀ r, outcomes retries = .resp r →
        fetchWithRetry outcomes retries =
          ⟨.returned r, retries + 1, (List.range retries).map backoffDelay⟩) ∧
    (∀ (β : Type) (outcomes : Nat → FetchOutcome β) (retries : Nat) (r : Response β),
      r.status = 404 → outcomes 0 = .resp r →
        fetchWithRetry outcomes retries = ⟨.returned r, 1, []⟩) := by
  constructor
  · intro β outcomes retries h503 r hr
    have h := fwrGo_all_503 outcomes retries h503 retries 0 (by omega) r hr
    unfold fetchWithRetry
    rw [h]
    simp [List.range_eq_range']
  · intro β outcomes retries r h404 hr
    have himm : returnsImmediately r = true := by
      simp [returnsImmediately, Response.ok, h404]
    unfold fetchWithRetry
    rw [fwrGo_succ, hr]
    simp [himm]

/-- Witness for C5: with retries = 3, a constant-503 network yields 4
attempts with delays 1000, 2000, 4000 ms; a constant-404 network yields a
single attempt and no delays. -/
theorem retry_boundary_503_404_witness :
    fetchWithRetry (fun _ => .resp (⟨503, ()⟩ : Response Unit)) 3 =
      ⟨.returned ⟨503, ()⟩, 4, [1000, 2000, 4000]⟩ ∧
    fetchWithRetry (fun _ => .resp (⟨404, ()⟩ : Response Unit)) 3 =
      ⟨.returned ⟨404, ()⟩, 1, []⟩ := by
  constructor
  · have h := retry_boundary_503_404.1 Unit (fun _ => .resp ⟨503, ()⟩) 3
      (fun n => rfl) ⟨503, ()⟩ rfl
    exact h.trans (by decide)
  · exact retry_boundary_503_404.2 Unit (fun _ => .resp ⟨404, ()⟩) 3 ⟨404, ()⟩ rfl rfl

/-- Claim C1 (code bug): a response with status 429 is returned immediately
after exactly one attempt, with no backoff sleep — even though the loop's
own retry test (line 42) classifies 429 as retryable, the client-error
early return (line 37) covers 429 first, so that retry branch is
unreachable for 429. -/
theorem status_429_returned_immediately :
    fetchWithRetry (fun _ => .resp (⟨429, ()⟩ : Response Unit)) 3 =
      ⟨.returned ⟨429, ()⟩, 1, []⟩ ∧
    isRetryableStatus 429 = true ∧
    returnsImmediately (⟨429, ()⟩ : Response Unit) = true := by decide

/-! ## Cache-key theorems (C2) -/

/-- Counterexample for C2: reordering the identifier list changes the cache
key (the lists are permutations of each other yet the keys differ), and two
logically distinct identifier lists can collide on the same key. -/
theorem cryptosCacheKey_not_order_invariant :
    List.Perm ["bitcoin", "ethereum"] ["ethereum", "bitcoin"] ∧
    cryptosCacheKey ["bitcoin", "ethereum"] ≠ cryptosCacheKey ["ethereum", "bitcoin"] ∧
    cryptosCacheKey ["a,b"] = cryptosCacheKey ["a", "b"] :=
  ⟨by decide, by decide, rfl⟩

theorem str_append_cancel_left (s t u : String) (h : s ++ t = s ++ u) : t = u := by
  have hd : s.data ++ t.data = s.data ++ u.data := by
    have hdata := congrArg String.data h
    simpa [String.data_append] using hdata
  exact String.ext (List.append_cancel_left hd)

/-- Claim C2 (amended): the market-listing cache key is `cryptos-` followed
by the identifiers joined with commas in the order given, so two calls
compute equal cache keys exactly when their comma-joined identifier strings
are equal — not when the lists are merely permutations of each other. -/
theorem cryptosCacheKey_eq_iff (ids1 ids2 : List String) :
    cryptosCacheKey ids1 = cryptosCacheKey ids2 ↔
      String.intercalate "," ids1 = String.intercalate "," ids2 := by
  unfold cryptosCacheKey
  constructor
  · exact fun h => str_append_cancel_left "cryptos-" _ _ h
  · exact fun h => by rw [h]

/-! ## Facade fallback theorems (C3, C6) -/

/-- Claim C3: when the cache misses and the fetch client throws or surfaces
a non-OK response after its retries, the lookup returns the synthetic
generator's output for that resource kind and does not cache it — the cache
afterwards holds nothing under the key, so an identical later call misses
the cache again and consults the network.  Shown for the market listing and
the candlestick lookups. -/
theorem facade_failure_returns_synthetic_uncached :
    (∀ (ids : List String) (outcomes : Nat → FetchOutcome (List CryptoCurrency))
       (cache : Cache) (now : ℤ) (nowIso : String),
      (getCachedData cache now (cryptosCacheKey ids)).1 = none →
      (fetchWithRetry outcomes 3).failed →
      fetchCryptocurrencies ids outcomes cache now nowIso =
        (.cryptos (generateMockData ids nowIso), cacheErase cache (cryptosCacheKey ids)) ∧
      ∀ now2 : ℤ,
        (getCachedData (cacheErase cache (cryptosCacheKey ids)) now2 (cryptosCacheKey ids)).1
          = none) ∧
    (∀ (id : String) (tf : ChartTimeframe)
       (outcomes : Nat → FetchOutcome (List (ℚ × ℚ × ℚ × ℚ × ℚ)))
       (volRand genRand : Nat → ℚ) (cache : Cache) (now : ℤ) (nowMs : ℚ),
      (getCachedData cache now (candlestickCacheKey id tf)).1 = none →
      (fetchWithRetry outcomes 3).failed →
      fetchCandlestickData id tf outcomes volRand genRand cache now nowMs =
        (.candles (generateMockCandlestickData tf nowMs genRand),
          cacheErase cache (candlestickCacheKey id tf)) ∧
      ∀ now2 : ℤ,
        (getCachedData (cacheErase cache (candlestickCacheKey id tf)) now2
          (candlestickCacheKey id tf)).1 = none) := by
  constructor
  · intro ids outcomes cache now nowIso hmiss hfail
    have hg := getCachedData_miss_eq cache now (cryptosCacheKey ids) hmiss
    constructor
    · unfold fetchCryptocurrencies
      rw [hg]
      unfold FetchTrace.failed at hfail
      cases hres : (fetchWithRetry outcomes 3).result with
      | returned r =>
        rw [hres] at hfail
        simp [hfail]
      | netThrown => simp
      | exhausted => simp
    · intro now2
      simp [getCachedData, cacheGet_erase_self]
  · intro id tf outcomes volRand genRand cache now nowMs hmiss hfail
    have hg := getCachedData_miss_eq cache now (candlestickCacheKey id tf) hmiss
    constructor
    · unfold fetchCandlestickData
      rw [hg]
      unfold FetchTrace.failed at hfail
      cases hres : (fetchWithRetry outcomes 3).result with
      | returned r =>
        rw [hres] at hfail
        simp [hfail]
      | netThrown => simp
      | exhausted => simp
    · intro now2
      simp [getCachedData, cacheGet_erase_self]

/-- Witness for C3: a network that always errors makes the market-listing
and candlestick lookups return mock data, leaving the cache without the key
so that a later identical call misses again. -/
theorem facade_failure_returns_synthetic_uncached_witness :
    fetchCryptocurrencies ["bitcoin"] (fun _ => .netErr) [] 0 "t" =
      (.cryptos (generateMockData ["bitcoin"] "t"), cacheErase [] (cryptosCacheKey ["bitcoin"])) ∧
    (getCachedData (cacheErase [] (cryptosCacheKey ["bitcoin"])) 1 (cryptosCacheKey ["bitcoin"])).1
      = none ∧
    fetchCandlestickData "btc" .d7 (fun _ => .netErr) (fun _ => 0) (fun _ => 0) [] 0 0 =
      (.candles (generateMockCandlestickData .d7 0 (fun _ => 0)),
        cacheErase [] (candlestickCacheKey "btc" .d7)) ∧
    (getCachedData (cacheErase [] (candlestickCacheKey "btc" .d7)) 1
      (candlestickCacheKey "btc" .d7)).1 = none := by
  have hfail1 : (fetchWithRetry (fun _ => (.netErr : FetchOutcome (List CryptoCurrency))) 3).failed := by
    have hres : (fetchWithRetry (fun _ => (.netErr : FetchOutcome (List CryptoCurrency))) 3).result
        = .netThrown := rfl
    unfold FetchTrace.failed
    rw [hres]
    trivial
  have hfail2 : (fetchWithRetry (fun _ => (.netErr : FetchOutcome (List (ℚ × ℚ × ℚ × ℚ × ℚ)))) 3).failed := by
    have hres : (fetchWithRetry (fun _ => (.netErr : FetchOutcome (List (ℚ × ℚ × ℚ × ℚ × ℚ)))) 3).result
        = .netThrown := rfl
    unfold FetchTrace.failed
    rw [hres]
    trivial
  have h1 := facade_failure_returns_synthetic_uncached.1 ["bitcoin"] (fun _ => .netErr)
    [] 0 "t" rfl hfail1
  have h2 := facade_failure_returns_synthetic_uncached.2 "btc" .d7 (fun _ => .netErr)
    (fun _ => 0) (fun _ => 0) [] 0 0 rfl hfail2
  exact ⟨h1.1, h1.2 1, h2.1, h2.2 1⟩

/-- Claim C6 (amended): a successful response whose payload misses the
expected field is treated as a fetch failure only by the price-history
lookup — `data.prices.map` throws, the `catch` returns mock chart data and
nothing is cached.  The trading-pairs lookup instead coalesces a missing
`tickers` field to the empty list, returns it, and caches that degenerate
entry; its synthetic generator (which is never consulted here) would have
produced a non-empty list. -/
theorem malformed_payload_behaviour :
    (∀ (id : String) (tf : ChartTimeframe) (comparison : ComparisonAsset)
       (outcomes : Nat → FetchOutcome MarketChartPayload) (cache : Cache) (now : ℤ)
       (nowMs : ℚ) (rand : Nat → ℚ) (sine : ℚ → ℚ) (r : Response MarketChartPayload),
      (getCachedData cache now (historyCacheKey id tf comparison)).1 = none →
      (fetchWithRetry outcomes 3).result = .returned r →
      r.ok = true →
      r.body.prices = none →
      fetchPriceHistory id tf comparison outcomes cache now nowMs rand sine =
        (.chart (generateMockChartData tf nowMs rand sine),
          cacheErase cache (historyCacheKey id tf comparison)) ∧
      ∀ now2 : ℤ,
        (getCachedData (cacheErase cache (historyCacheKey id tf comparison)) now2
          (historyCacheKey id tf comparison)).1 = none) ∧
    (∀ (coinId : String) (outcomes : Nat → FetchOutcome TickersPayload) (cache : Cache)
       (now : ℤ) (nowIso : String) (r : Response TickersPayload),
      (getCachedData cache now ("pairs-" ++ coinId)).1 = none →
      (fetchWithRetry outcomes 3).result = .returned r →
      r.ok = true →
      r.body.tickers = none →
      fetchTradingPairs coinId outcomes cache now nowIso =
        (.pairs [], setCachedData (cacheErase cache ("pairs-" ++ coinId)) now
          ("pairs-" ++ coinId) (.pairs []) 60000) ∧
      cacheGet (fetchTradingPairs coinId outcomes cache now nowIso).2 ("pairs-" ++ coinId) =
        some ⟨.pairs [], now, 60000⟩ ∧
      generateMockTradingPairs coinId nowIso ≠ []) := by
  constructor
  · intro id tf comparison outcomes cache now nowMs rand sine r hmiss hres hok hprices
    have hg := getCachedData_miss_eq cache now (historyCacheKey id tf comparison) hmiss
    constructor
    · unfold fetchPriceHistory
      rw [hg, hres]
      simp [hok, hprices]
    · intro now2
      simp [getCachedData, cacheGet_erase_self]
  · intro coinId outcomes cache now nowIso r hmiss hres hok htickers
    have hg := getCachedData_miss_eq cache now ("pairs-" ++ coinId) hmiss
    have hmain : fetchTradingPairs coinId outcomes cache now nowIso =
        (.pairs [], setCachedData (cacheErase cache ("pairs-" ++ coinId)) now
          ("pairs-" ++ coinId) (.pairs []) 60000) := by
      unfold fetchTradingPairs
      rw [hg, hres]
      simp [hok, htickers]
    refine ⟨hmain, ?_, ?_⟩
    · rw [hmain]
      exact cacheGet_set_self _ now _ (.pairs []) 60000
    · simp [generateMockTradingPairs]

/-- Counterexample for C6: a successful trading-pairs response whose payload
has no `tickers` field makes the lookup return the empty list and cache it —
not the (non-empty) synthetic trading pairs the claim requires, and the
degenerate result does get cached. -/
theorem fetchTradingPairs_missing_tickers_cached :
    fetchTradingPairs "bitcoin" (fun _ => .resp ⟨200, ⟨none⟩⟩) [] 0 "t" =
      (.pairs [], [("pairs-bitcoin", ⟨.pairs [], 0, 60000⟩)]) ∧
    (.pairs [] : CacheValue) ≠ .pairs (generateMockTradingPairs "bitcoin" "t") := by decide

/-- Witness for C6: concrete runs of both lookups over a 200-OK response
with the expected field absent. -/
theorem malformed_payload_behaviour_witness :
    fetchPriceHistory "btc" .h1 .usd (fun _ => .resp ⟨200, ⟨none, none, none⟩⟩) [] 0 0
        (fun _ => 0) (fun _ => 0) =
      (.chart (generateMockChartData .h1 0 (fun _ => 0) (fun _ => 0)),
        cacheErase [] (historyCacheKey "btc" .h1 .usd)) ∧
    (getCachedData (cacheErase [] (historyCacheKey "btc" .h1 .usd)) 1
      (historyCacheKey "btc" .h1 .usd)).1 = none ∧
    fetchTradingPairs "eth" (fun _ => .resp ⟨200, ⟨none⟩⟩) [] 0 "t" =
      (.pairs [], setCachedData (cacheErase [] ("pairs-" ++ "eth")) 0
        ("pairs-" ++ "eth") (.pairs []) 60000) ∧
    cacheGet (fetchTradingPairs "eth" (fun _ => .resp ⟨200, ⟨none⟩⟩) [] 0 "t").2
      ("pairs-" ++ "eth") = some ⟨.pairs [], 0, 60000⟩ ∧
    generateMockTradingPairs "eth" "t" ≠ [] := by
  have h1 := malformed_payload_behaviour.1 "btc" .h1 .usd
    (fun _ => .resp ⟨200, ⟨none, none, none⟩⟩) [] 0 0 (fun _ => 0) (fun _ => 0)
    ⟨200, ⟨none, none, none⟩⟩ rfl rfl rfl rfl
  have h2 := malformed_payload_behaviour.2 "eth" (fun _ => .resp ⟨200, ⟨none⟩⟩) [] 0 "t"
    ⟨200, ⟨none⟩⟩ rfl rfl rfl rfl
  exact ⟨h1.1, h1.2 1, h2.1, h2.2.1, h2.2.2⟩

/-! ## Candle invariants (C9) -/

/-- The OHLC ordering invariant on a candle. -/
def candleValid (c : CandlestickData) : Prop :=
  c.low ≤ c.«open» ∧ c.«open» ≤ c.high ∧ c.low ≤ c.close ∧ c.close ≤ c.high

instance (c : CandlestickData) : Decidable (candleValid c) := by
  unfold candleValid
  infer_instance

/-- The same ordering invariant on an upstream `[timestamp, open, high,
low, close]` tuple. -/
def ohlcTupleValid (t : ℚ × ℚ × ℚ × ℚ × ℚ) : Prop :=
  t.2.2.2.1 ≤ t.2.1 ∧ t.2.1 ≤ t.2.2.1 ∧ t.2.2.2.1 ≤ t.2.2.2.2 ∧ t.2.2.2.2 ≤ t.2.2.1

theorem genCandlesGo_valid (rand : Nat → ℚ) (nowMs interval : ℚ) (points : Nat)
    (hr : ∀ n, 0 ≤ rand n ∧ rand n < 1) :
    ∀ (fuel i : Nat) (lastClose : ℚ),
      ∀ c ∈ genCandlesGo rand nowMs interval points i fuel lastClose,
        candleValid c ∧ 0 ≤ c.volume := by
  intro fuel
  induction fuel with
  | zero =>
    intro i lc c hc
    simp [genCandlesGo] at hc
  | succ fuel ih =>
    intro i lc c hc
    simp only [genCandlesGo, List.mem_cons] at hc
    rcases hc with hc | hc
    · subst hc
      obtain ⟨h1n, h1u⟩ := hr (5 * i + 1)
      obtain ⟨h2n, h2u⟩ := hr (5 * i + 2)
      obtain ⟨h3n, h3u⟩ := hr (5 * i + 3)
      obtain ⟨h4n, h4u⟩ := hr (5 * i + 4)
      unfold candleValid
      dsimp only
      refine ⟨⟨?_, ?_, ?_, ?_⟩, ?_⟩
      · nlinarith
      · nlinarith
      · nlinarith [mul_nonneg h3n
          (by nlinarith : (0:ℚ) ≤ rand (5 * i + 1) * 500 + rand (5 * i + 2) * 500)]
      · nlinarith [mul_nonneg (by linarith : (0:ℚ) ≤ 1 - rand (5 * i + 3))
          (by nlinarith : (0:ℚ) ≤ rand (5 * i + 1) * 500 + rand (5 * i + 2) * 500)]
      · nlinarith
    · exact ih (i + 1) _ c hc

/-- Claim C9 (amended): every synthetic candle satisfies the OHLC ordering
invariant and carries a non-negative volume; every parsed candle carries a
non-negative synthesized volume, but its open/high/low/close are copied
verbatim from the upstream tuple with no validation, so parsed candles
satisfy the ordering invariant (only) when the upstream tuples do. -/
theorem candle_invariant_synthetic_and_parsed :
    (∀ (tf : ChartTimeframe) (nowMs : ℚ) (rand : Nat → ℚ),
      (∀ n, 0 ≤ rand n ∧ rand n < 1) →
      ∀ c ∈ generateMockCandlestickData tf nowMs rand, candleValid c ∧ 0 ≤ c.volume) ∧
    (∀ (body : List (ℚ × ℚ × ℚ × ℚ × ℚ)) (volRand : Nat → ℚ),
      (∀ n, 0 ≤ volRand n) →
      ∀ c ∈ parseCandles body volRand, 0 ≤ c.volume) ∧
    (∀ (body : List (ℚ × ℚ × ℚ × ℚ × ℚ)) (volRand : Nat → ℚ),
      (∀ t ∈ body, ohlcTupleValid t) →
      ∀ c ∈ parseCandles body volRand, candleValid c) := by
  refine ⟨?_, ?_, ?_⟩
  · intro tf nowMs rand hr c hc
    exact genCandlesGo_valid rand nowMs _ _ hr _ 0 43000 c hc
  · intro body volRand hv c hc
    simp only [parseCandles, List.mem_map] at hc
    obtain ⟨p, _, rfl⟩ := hc
    exact mul_nonneg (hv p.1) (by norm_num)
  · intro body volRand ht c hc
    simp only [parseCandles, List.mem_map] at hc
    obtain ⟨p, hp, rfl⟩ := hc
    have := ht p.2 (List.snd_mem_of_mem_enum hp)
    exact ⟨this.1, this.2.1, this.2.2.1, this.2.2.2⟩

/-- Counterexample for C9: the parser copies an out-of-order upstream tuple
verbatim, producing a candle with `low > open` and `low > high`. -/
theorem parsed_candle_violates_invariant :
    parseCandles [(0, 1, 0, 5, 2)] (fun _ => 0.5) =
      [{ timestamp := 0, «open» := 1, high := 0, low := 5, close := 2, volume := 500000 }] ∧
    ¬ candleValid
      { timestamp := 0, «open» := 1, high := 0, low := 5, close := 2, volume := 500000 } := by
  constructor
  · norm_num [parseCandles, List.enum]
  · decide

/-- Witness for C9: a concrete synthetic candle from the generator and a
concrete parsed candle from an in-order upstream tuple. -/
theorem candle_invariant_synthetic_and_parsed_witness :
    (candleValid { timestamp := -86400000, «open» := 43000, high := 43250, low := 42750, close := 43000, volume := 500000 } ∧
      (0:ℚ) ≤ ({ timestamp := -86400000, «open» := 43000, high := 43250, low := 42750, close := 43000, volume := 500000 } : CandlestickData).volume) ∧
    (0:ℚ) ≤ ({ timestamp := 0, «open» := 2, high := 3, low := 1, close := 2, volume := 500000 } : CandlestickData).volume ∧
    candleValid { timestamp := 0, «open» := 2, high := 3, low := 1, close := 2, volume := 500000 } := by
  have hmem : ({ timestamp := -86400000, «open» := 43000, high := 43250, low := 42750, close := 43000, volume := 500000 } : CandlestickData) ∈
      generateMockCandlestickData .h24 0 (fun _ => 0.5) := by
    show _ ∈ genCandlesGo (fun _ => 0.5) 0 3600000 24 0 (23 + 1) 43000
    simp only [genCandlesGo, List.mem_cons]
    left
    norm_num
  have hparse : parseCandles [(0, 2, 3, 1, 2)] (fun _ => 0.5) =
      [{ timestamp := 0, «open» := 2, high := 3, low := 1, close := 2, volume := 500000 }] := by
    norm_num [parseCandles, List.enum]
  have hmem2 : ({ timestamp := 0, «open» := 2, high := 3, low := 1, close := 2, volume := 500000 } : CandlestickData) ∈
      parseCandles [(0, 2, 3, 1, 2)] (fun _ => 0.5) := by
    rw [hparse]
    exact List.mem_singleton_self _
  have hr : ∀ n : Nat, 0 ≤ (fun _ : Nat => (0.5:ℚ)) n ∧ (fun _ : Nat => (0.5:ℚ)) n < 1 :=
    fun n => by norm_num
  have hv : ∀ n : Nat, 0 ≤ (fun _ : Nat => (0.5:ℚ)) n := fun n => by norm_num
  have ht : ∀ t ∈ [((0:ℚ), (2:ℚ), (3:ℚ), (1:ℚ), (2:ℚ))], ohlcTupleValid t := by
    intro t htm
    simp only [List.mem_singleton] at htm
    subst htm
    exact ⟨by norm_num, by norm_num, by norm_num, by norm_num⟩
  exact ⟨candle_invariant_synthetic_and_parsed.1 .h24 0 (fun _ => 0.5) hr _ hmem,
    candle_invariant_synthetic_and_parsed.2.1 [(0, 2, 3, 1, 2)] (fun _ => 0.5) hv _ hmem2,
    candle_invariant_synthetic_and_parsed.2.2 [(0, 2, 3, 1, 2)] (fun _ => 0.5) ht _ hmem2⟩

/-! ## Prediction heuristic theorems (C7, C10) -/

/-- The confidence clamp `Math.max(0.5, Math.min(0.95, x))` always lands in
[0.5, 0.95]. -/
theorem clamp_bounds (x : ℚ) : 0.5 ≤ max 0.5 (min 0.95 x) ∧ max 0.5 (min 0.95 x) ≤ 0.95 :=
  ⟨le_max_left _ _, max_le (by norm_num) (min_le_left _ _)⟩

theorem trend_ite_spec (p pred : ℚ) (hp : 0 ≤ p) :
    ((if pred > p * 1.03 then Trend.bullish
      else if pred < p * 0.97 then Trend.bearish else Trend.neutral) = .bullish ↔
        pred > p * 1.03) ∧
    ((if pred > p * 1.03 then Trend.bullish
      else if pred < p * 0.97 then Trend.bearish else Trend.neutral) = .bearish ↔
        pred < p * 0.97) ∧
    ((if pred > p * 1.03 then Trend.bullish
      else if pred < p * 0.97 then Trend.bearish else Trend.neutral) = .neutral ↔
        (¬ pred > p * 1.03 ∧ ¬ pred < p * 0.97)) := by
  by_cases h1 : pred > p * 1.03
  · have h2 : ¬ pred < p * 0.97 := by nlinarith
    simp [h1, h2]
  · by_cases h2 : pred < p * 0.97
    · simp [h1, h2]
    · simp [h1, h2]

/-- The snapshot exhibiting the C7 counterexample: a (type-permitted)
negative current price. -/
def negPriceSnapshot : CryptoCurrency :=
  { id := "x", symbol := "x", name := "x", current_price := -1
    price_change_percentage_24h := some 1, price_change_percentage_7d := none
    price_change_percentage_30d := none, market_cap := 0, market_cap_rank := 11
    fully_diluted_valuation := none, total_volume := 0, circulating_supply := 0
    total_supply := none, max_supply := none, ath := 0, ath_date := "", atl := 0
    atl_date := "", image := "", last_updated := "" }

/-- Counterexample for C7: on a snapshot with a negative current price the
predicted price can be below `price * 0.97` while the trend label is
`bullish` (the `bullish` branch is tested first and also holds, since the
two thresholds swap order for a negative price), contradicting
"`bearish` iff predicted < price * 0.97". -/
theorem prediction_trend_mislabels_negative_price :
    (generatePrediction negPriceSnapshot 0.4 0).trend = .bullish ∧
    (generatePrediction negPriceSnapshot 0.4 0).prediction <
      negPriceSnapshot.current_price * 0.97 := by
  constructor <;> norm_num [generatePrediction, jsNum, negPriceSnapshot]

/-- Claim C7 (amended): for every snapshot with a non-negative current
price, the confidence is clamped into [0.5, 0.95]; the trend is `bullish`
iff the predicted price exceeds `price * 1.03`, `bearish` iff it is below
`price * 0.97`, and `neutral` otherwise; and the predicted price is
`price * (1 + volatility + trend term + rank adjustment)`. -/
theorem generatePrediction_spec (crypto : CryptoCurrency) (r1 r2 : ℚ)
    (hp : 0 ≤ crypto.current_price) :
    (0.5 ≤ (generatePrediction crypto r1 r2).confidence ∧
      (generatePrediction crypto r1 r2).confidence ≤ 0.95) ∧
    ((generatePrediction crypto r1 r2).trend = .bullish ↔
      (generatePrediction crypto r1 r2).prediction > crypto.current_price * 1.03) ∧
    ((generatePrediction crypto r1 r2).trend = .bearish ↔
      (generatePrediction crypto r1 r2).prediction < crypto.current_price * 0.97) ∧
    ((generatePrediction crypto r1 r2).trend = .neutral ↔
      (¬ (generatePrediction crypto r1 r2).prediction > crypto.current_price * 1.03 ∧
        ¬ (generatePrediction crypto r1 r2).prediction < crypto.current_price * 0.97)) ∧
    (generatePrediction crypto r1 r2).prediction =
      crypto.current_price * (1 + (r1 * 0.2 - 0.1) +
        (if jsNum crypto.price_change_percentage_24h > 0 then 0.05 else -0.05) +
        (if crypto.market_cap_rank ≤ 10 then 0.02 else -0.02)) := by
  unfold generatePrediction
  dsimp only
  have ht := trend_ite_spec crypto.current_price
    (crypto.current_price * (1 + (r1 * 0.2 - 0.1) +
      (if jsNum crypto.price_change_percentage_24h > 0 then 0.05 else -0.05) +
      (if crypto.market_cap_rank ≤ 10 then 0.02 else -0.02))) hp
  exact ⟨clamp_bounds _, ht.1, ht.2.1, ht.2.2, rfl⟩

/-- A snapshot with a positive current price for the C7 witness. -/
def posPriceSnapshot : CryptoCurrency :=
  { id := "bitcoin", symbol := "btc", name := "Bitcoin", current_price := 100
    price_change_percentage_24h := some 2, price_change_percentage_7d := none
    price_change_percentage_30d := none, market_cap := 2000000000, market_cap_rank := 1
    fully_diluted_valuation := none, total_volume := 0, circulating_supply := 0
    total_supply := none, max_supply := none, ath := 0, ath_date := "", atl := 0
    atl_date := "", image := "", last_updated := "" }

/-- Witness for C7 at a concrete positive-price snapshot. -/
theorem generatePrediction_spec_witness :
    (0.5 ≤ (generatePrediction posPriceSnapshot 0.5 0.5).confidence ∧
      (generatePrediction posPriceSnapshot 0.5 0.5).confidence ≤ 0.95) ∧
    ((generatePrediction posPriceSnapshot 0.5 0.5).trend = .bullish ↔
      (generatePrediction posPriceSnapshot 0.5 0.5).prediction >
        posPriceSnapshot.current_price * 1.03) ∧
    ((generatePrediction posPriceSnapshot 0.5 0.5).trend = .bearish ↔
      (generatePrediction posPriceSnapshot 0.5 0.5).prediction <
        posPriceSnapshot.current_price * 0.97) ∧
    ((generatePrediction posPriceSnapshot 0.5 0.5).trend = .neutral ↔
      (¬ (generatePrediction posPriceSnapshot 0.5 0.5).prediction >
          posPriceSnapshot.current_price * 1.03 ∧
        ¬ (generatePrediction posPriceSnapshot 0.5 0.5).prediction <
          posPriceSnapshot.current_price * 0.97)) ∧
    (generatePrediction posPriceSnapshot 0.5 0.5).prediction =
      posPriceSnapshot.current_price * (1 + ((0.5:ℚ) * 0.2 - 0.1) +
        (if jsNum posPriceSnapshot.price_change_percentage_24h > 0 then 0.05 else -0.05) +
        (if posPriceSnapshot.market_cap_rank ≤ 10 then 0.02 else -0.02)) :=
  generatePrediction_spec posPriceSnapshot 0.5 0.5 (by norm_num [posPriceSnapshot])

/-- Claim C10: a null 24h change yields exactly the output of a zero
change — the trend contribution is the non-positive branch's −0.05 and the
volatility test sees magnitude 0 (< 5), granting the +0.1 confidence
bonus — and the confidence still lands in [0.5, 0.95]. -/
theorem generatePrediction_null_change (crypto : CryptoCurrency) (r1 r2 : ℚ)
    (h : crypto.price_change_percentage_24h = none) :
    generatePrediction crypto r1 r2 =
      generatePrediction { crypto with price_change_percentage_24h := some 0 } r1 r2 ∧
    (generatePrediction crypto r1 r2).prediction =
      crypto.current_price * (1 + (r1 * 0.2 - 0.1) + (-0.05) +
        (if crypto.market_cap_rank ≤ 10 then 0.02 else -0.02)) ∧
    (generatePrediction crypto r1 r2).confidence =
      max 0.5 (min 0.95 (0.7 + 0.1 +
        (if crypto.market_cap > 1000000000 then 0.1 else -0.05) + r2 * 0.2)) ∧
    0.5 ≤ (generatePrediction crypto r1 r2).confidence ∧
    (generatePrediction crypto r1 r2).confidence ≤ 0.95 := by
  refine ⟨?_, ?_, ?_, ?_, ?_⟩
  · norm_num [generatePrediction, jsNum, h]
  · norm_num [generatePrediction, jsNum, h]
  · norm_num [generatePrediction, jsNum, h]
  · exact (clamp_bounds _).1
  · exact (clamp_bounds _).2

/-- A snapshot whose 24h change is null, for the C10 witness. -/
def nullChangeSnapshot : CryptoCurrency :=
  { id := "newcoin", symbol := "new", name := "Newcoin", current_price := 10
    price_change_percentage_24h := none, price_change_percentage_7d := none
    price_change_percentage_30d := none, market_cap := 500000, market_cap_rank := 999
    fully_diluted_valuation := none, total_volume := 0, circulating_supply := 0
    total_supply := none, max_supply := none, ath := 0, ath_date := "", atl := 0
    atl_date := "", image := "", last_updated := "" }

/-- Witness for C10 at a concrete snapshot with a null 24h change. -/
theorem generatePrediction_null_change_witness :
    generatePrediction nullChangeSnapshot 0.5 0.5 =
      generatePrediction { nullChangeSnapshot with price_change_percentage_24h := some 0 } 0.5 0.5 ∧
    (generatePrediction nullChangeSnapshot 0.5 0.5).prediction =
      nullChangeSnapshot.current_price * (1 + ((0.5:ℚ) * 0.2 - 0.1) + (-0.05) +
        (if nullChangeSnapshot.market_cap_rank ≤ 10 then 0.02 else -0.02)) ∧
    (generatePrediction nullChangeSnapshot 0.5 0.5).confidence =
      max 0.5 (min 0.95 (0.7 + 0.1 +
        (if nullChangeSnapshot.market_cap > 1000000000 then 0.1 else -0.05) + (0.5:ℚ) * 0.2)) ∧
    0.5 ≤ (generatePrediction nullChangeSnapshot 0.5 0.5).confidence ∧
    (generatePrediction nullChangeSnapshot 0.5 0.5).confidence ≤ 0.95 :=
  generatePrediction_null_change nullChangeSnapshot 0.5 0.5 rfl
